import Mathlib

/-
Verification development for the django-auth-service repository.

The subject is the token-lifecycle and rate-limiting subsystem:
  - password-reset token issuance and single-use redemption
    (src/accounts/views.py: request_password_reset, confirm_password_reset),
  - the rate limiter gating login and reset-request traffic
    (src/accounts/throttling.py: LoginRateThrottle, PasswordResetRateThrottle).

Both sit on top of the Django cache, a key-value store with per-key expiry
(the TTL store).  We embed the store as a function from string keys to an
optional pair of a value and an absolute expiry instant, with an explicit
current time threaded through every operation.  Time is measured in whole
seconds as a natural number.
-/

namespace AuthService

/-- A TTL store: each key optionally holds a value together with the absolute
instant at which the entry expires.  An entry is readable strictly before its
expiry instant and unreadable from the expiry instant on, matching the Django
cache backends where a lookup treats an entry with `exp <= now` as expired. -/
abbrev TTLStore (α : Type) := String → Option (α × Nat)

/-- `cache.get(key)`: the stored value, or `none` when the key is absent or its
expiry instant has been reached. -/
def tget {α : Type} (s : TTLStore α) (now : Nat) (k : String) : Option α :=
  (s k).bind (fun ve => if now < ve.2 then some ve.1 else none)

/-- `cache.set(key, value, timeout=ttl)`: bind `k` to `v`, expiring `ttl`
seconds from `now`. -/
def tset {α : Type} (s : TTLStore α) (now : Nat) (k : String) (v : α) (ttl : Nat) :
    TTLStore α :=
  fun k2 => if k2 = k then some (v, now + ttl) else s k2

/-- `cache.delete(key)`: remove the entry for `k`. -/
def tdelete {α : Type} (s : TTLStore α) (k : String) : TTLStore α :=
  fun k2 => if k2 = k then none else s k2

/-- `cache.incr(key)`: increment a counter in place, leaving its expiry
instant unchanged. -/
def tincr (s : TTLStore Nat) (k : String) : TTLStore Nat :=
  fun k2 => if k2 = k then (s k).map (fun ve => (ve.1 + 1, ve.2)) else s k2

/-- Remaining lifetime of a key, in seconds, as observed at `now`; `none` when
the key is absent or already expired. -/
def get_ttl {α : Type} (s : TTLStore α) (now : Nat) (k : String) : Option Nat :=
  (s k).bind (fun ve => if now < ve.2 then some (ve.2 - now) else none)

/-! ## Password-reset token manager (src/accounts/views.py) -/

/-- The response payloads the two reset endpoints build: an HTTP status plus
the JSON fields they populate (absent fields are `none`). -/
structure HttpResponse where
  status : Nat
  message : Option String := none
  error : Option String := none
  token : Option String := none
  expires_in : Option String := none
  deriving DecidableEq, Repr

/-- The token alphabet `string.ascii_letters + string.digits` used by
`secrets.choice` in request_password_reset (views.py line 315). -/
def alphabetList : List Char :=
  "abcdefghijklmnopqrstuvwxyzABCDEFGHIJKLMNOPQRSTUVWXYZ0123456789".toList

/-- The 32-character token built by
`''.join(secrets.choice(alphabet) for _ in range(32))` (views.py line 315).
The random draws of `secrets.choice` are abstracted as the function `pick`
giving the index drawn at each of the 32 positions; every theorem below is
quantified over all draw sequences. -/
def genToken (pick : Fin 32 → Fin 62) : List Char :=
  List.ofFn (fun i : Fin 32 => alphabetList.get (Fin.cast (by decide) (pick i)))

/-- The generated token as a string. -/
def genTokenStr (pick : Fin 32 → Fin 62) : String :=
  String.mk (genToken pick)

/-- The cache key `f"password_reset_{token}"` (views.py lines 318 and 405). -/
def resetTokenKey (token : String) : String :=
  "password_reset_" ++ token

/-- 200 payload of request_password_reset when the user exists
(views.py lines 321-325). -/
def resetRequestOkResponse (token : String) : HttpResponse :=
  { status := 200
    message := some "Password reset token generated successfully"
    token := some token
    expires_in := some "10 minutes" }

/-- 200 payload of request_password_reset when no user has the email
(views.py lines 327-330). -/
def resetRequestGenericResponse : HttpResponse :=
  { status := 200
    message := some "If the email exists, a password reset token has been generated" }

/-- 400 payload of confirm_password_reset for an absent token
(views.py lines 408-411). -/
def invalidTokenResponse : HttpResponse :=
  { status := 400, error := some "Invalid or expired token" }

/-- 400 payload of confirm_password_reset when the bound user no longer exists
(views.py lines 425-428). -/
def userNotFoundResponse : HttpResponse :=
  { status := 400, error := some "User not found" }

/-- 200 payload of confirm_password_reset on success (views.py lines 421-423). -/
def resetOkResponse : HttpResponse :=
  { status := 200, message := some "Password reset successful" }

/-- request_password_reset (views.py lines 308-332), after body validation.
`findByEmail` embeds `User.objects.get(email=email)` of the external user
store; `pick` abstracts the `secrets.choice` draws.  When a user is found, a
token is generated and `token -> user.id` is stored under
`password_reset_{token}` with a 600-second TTL (views.py lines 315-319); when
no user is found the store is untouched and a generic 200 is returned. -/
def request_password_reset (findByEmail : String → Option Nat) (store : TTLStore Nat)
    (now : Nat) (email : String) (pick : Fin 32 → Fin 62) :
    HttpResponse × TTLStore Nat :=
  match findByEmail email with
  | some uid =>
      (resetRequestOkResponse (genTokenStr pick),
        tset store now (resetTokenKey (genTokenStr pick)) uid 600)
  | none => (resetRequestGenericResponse, store)

/-- Outcome of one confirm_password_reset call: the HTTP response, the store
it leaves behind, and the user id whose password was set (`none` when no
password update happened). -/
structure ConfirmOutcome where
  resp : HttpResponse
  store : TTLStore Nat
  passwordSet : Option Nat

/-- The read phase of confirm_password_reset:
`user_id = cache.get(f"password_reset_{token}")` (views.py lines 405-406).
This is a separate store operation from the later delete. -/
def confirmLookup (store : TTLStore Nat) (now : Nat) (token : String) : Option Nat :=
  tget store now (resetTokenKey token)

/-- The continuation of confirm_password_reset after the cache read
(views.py lines 408-428): absent token gives a 400; a resolvable user gets
the password set and the token key deleted; an unresolvable user id gives a
400 and leaves the token in the store. -/
def confirmRest (userExists : Nat → Bool) (store : TTLStore Nat) (token : String) :
    Option Nat → ConfirmOutcome
  | none => ⟨invalidTokenResponse, store, none⟩
  | some uid =>
      if userExists uid then
        ⟨resetOkResponse, tdelete store (resetTokenKey token), some uid⟩
      else
        ⟨userNotFoundResponse, store, none⟩

/-- confirm_password_reset (views.py lines 399-430), after body validation:
the cache read followed by its continuation.  `userExists` embeds
`User.objects.get(id=user_id)` of the external user store. -/
def confirm_password_reset (userExists : Nat → Bool) (store : TTLStore Nat)
    (now : Nat) (token : String) : ConfirmOutcome :=
  confirmRest userExists store token (confirmLookup store now token)

/-- A sequential trace of confirm_password_reset calls for one token at the
given times, threading the store; returns the response list and final store. -/
def runConfirms (userExists : Nat → Bool) (token : String) :
    TTLStore Nat → List Nat → List HttpResponse × TTLStore Nat
  | s, [] => ([], s)
  | s, t :: ts =>
      let o := confirm_password_reset userExists s t token
      let rest := runConfirms userExists token o.store ts
      (o.resp :: rest.1, rest.2)

/-- One interleaving of two concurrent confirm_password_reset calls for the
same token: both cache reads (views.py line 406) execute before either
continuation runs.  Each store operation is individually atomic; the schedule
is legal because the read and the delete are separate cache calls. -/
def interleavedDoubleRedeem (userExists : Nat → Bool) (store : TTLStore Nat)
    (now : Nat) (token : String) : ConfirmOutcome × ConfirmOutcome :=
  let r1 := confirmLookup store now token
  let r2 := confirmLookup store now token
  let o1 := confirmRest userExists store token r1
  let o2 := confirmRest userExists o1.store token r2
  (o1, o2)

/-! ## Rate limiter (src/accounts/throttling.py) -/

/-- The admit-or-reject decision of the rate limiter. -/
structure Decision where
  admitted : Bool
  retry_after_seconds : Nat
  deriving DecidableEq, Repr

/-- Modelled from the spec: the rate-limit check algorithm.  LoginRateThrottle
and PasswordResetRateThrottle in src/accounts/throttling.py inherit their
admit-or-reject logic from rest_framework.throttling.SimpleRateThrottle,
which is not part of this repository and is not under src/; the check is
therefore modelled from spec section 4.1 (fixed-window counter): if the
counter is absent, set count 1 with TTL = window and admit; if present with
count below the limit, atomically increment and admit; otherwise reject with
retry_after_seconds the remaining TTL of the key, clamped to be nonnegative. -/
def check (store : TTLStore Nat) (now : Nat) (key : String) (limit window : Nat) :
    Decision × TTLStore Nat :=
  match tget store now key with
  | none => (⟨true, 0⟩, tset store now key 1 window)
  | some c =>
      if c < limit then (⟨true, 0⟩, tincr store key)
      else (⟨false, (get_ttl store now key).getD 0⟩, store)

/-- A sequential trace of rate-limit checks for one identity key at the given
times, threading the store. -/
def runChecks (limit window : Nat) (key : String) :
    TTLStore Nat → List Nat → List Decision × TTLStore Nat
  | s, [] => ([], s)
  | s, t :: ts =>
      let r := check s t key limit window
      let rest := runChecks limit window key r.2 ts
      (r.1 :: rest.1, rest.2)

/-- LoginRateThrottle.get_ident (throttling.py lines 17-24): the first entry
of the X-Forwarded-For chain, stripped, when that header is present and
nonempty; otherwise the direct peer address. -/
def get_ident (xff : Option String) (remote_addr : String) : String :=
  match xff with
  | some s => if s = "" then remote_addr else ((s.splitOn ",").headD s).trim
  | none => remote_addr

/-- LoginRateThrottle.get_cache_key (throttling.py lines 13-15). -/
def login_throttle_key (xff : Option String) (remote_addr : String) : String :=
  "login_throttle_" ++ get_ident xff remote_addr

/-- PasswordResetRateThrottle.get_cache_key (throttling.py lines 34-41):
`none` when no email was supplied, otherwise a key built from a one-way hash
of the email.  The hash (`hashlib.md5(...).hexdigest()`) is an external
primitive, abstracted as `md5hex`. -/
def password_reset_throttle_cache_key (md5hex : String → String) (email : String) :
    Option String :=
  if email = "" then none
  else some ("password_reset_throttle_" ++ md5hex email)

/-- LoginRateThrottle rate `5/minute` (throttling.py line 11): limit. -/
def login_rate_limit : Nat := 5

/-- LoginRateThrottle rate `5/minute` (throttling.py line 11): window. -/
def login_rate_window : Nat := 60

/-- PasswordResetRateThrottle rate `3/hour` (throttling.py line 32): limit. -/
def password_reset_rate_limit : Nat := 3

/-- PasswordResetRateThrottle rate `3/hour` (throttling.py line 32): window. -/
def password_reset_rate_window : Nat := 3600

/-! ## Store lemmas -/

theorem tget_tset_self {α : Type} (s : TTLStore α) (now t : Nat) (k : String)
    (v : α) (ttl : Nat) :
    tget (tset s now k v ttl) t k = if t < now + ttl then some v else none := by
  simp [tget, tset]

theorem tget_tdelete_self {α : Type} (s : TTLStore α) (t : Nat) (k : String) :
    tget (tdelete s k) t k = none := by
  simp [tget, tdelete]

theorem tget_none_of_raw_none {α : Type} {s : TTLStore α} {t : Nat} {k : String}
    (h : s k = none) : tget s t k = none := by
  simp [tget, h]

/-! ## Token-manager lemmas -/

theorem confirm_of_absent (userExists : Nat → Bool) (store : TTLStore Nat)
    (now : Nat) (token : String)
    (h : tget store now (resetTokenKey token) = none) :
    confirm_password_reset userExists store now token =
      ⟨invalidTokenResponse, store, none⟩ := by
  simp [confirm_password_reset, confirmLookup, h, confirmRest]

theorem confirm_of_present_user (userExists : Nat → Bool) (store : TTLStore Nat)
    (now : Nat) (token : String) (uid : Nat)
    (h : tget store now (resetTokenKey token) = some uid)
    (hu : userExists uid = true) :
    confirm_password_reset userExists store now token =
      ⟨resetOkResponse, tdelete store (resetTokenKey token), some uid⟩ := by
  simp [confirm_password_reset, confirmLookup, h, confirmRest, hu]

theorem runConfirms_absent (userExists : Nat → Bool) (token : String)
    (ts : List Nat) :
    ∀ s : TTLStore Nat, s (resetTokenKey token) = none →
      runConfirms userExists token s ts =
        (ts.map fun _ => invalidTokenResponse, s) := by
  induction ts with
  | nil => intro s _; rfl
  | cons t ts ih =>
      intro s h
      have h1 := confirm_of_absent userExists s t token (tget_none_of_raw_none h)
      simp [runConfirms, h1, ih s h]

theorem request_found (findByEmail : String → Option Nat) (store : TTLStore Nat)
    (now : Nat) (email : String) (pick : Fin 32 → Fin 62) (uid : Nat)
    (hfind : findByEmail email = some uid) :
    request_password_reset findByEmail store now email pick =
      (resetRequestOkResponse (genTokenStr pick),
        tset store now (resetTokenKey (genTokenStr pick)) uid 600) := by
  simp [request_password_reset, hfind]

theorem genToken_length (pick : Fin 32 → Fin 62) : (genToken pick).length = 32 := by
  simp [genToken]

theorem genToken_mem_alphabet (pick : Fin 32 → Fin 62) :
    ∀ c ∈ genToken pick, c ∈ alphabetList := by
  intro c hc
  rw [genToken, List.mem_ofFn] at hc
  obtain ⟨i, hi⟩ := hc
  exact hi ▸ List.get_mem _ _ _

/-! ## Claims about the token manager -/

/-- Claim C2: redeeming any token that is absent from the TTL store at
redemption time, whether never issued, already redeemed, or expired, gives one
and the same outcome: a 400 response labelled Invalid or expired token, with
the store left unchanged and no password update; the three causes are not
distinguished. -/
theorem c2_absent_token_uniform (userExists : Nat → Bool) (store : TTLStore Nat)
    (now : Nat) (token : String)
    (habsent : tget store now (resetTokenKey token) = none) :
    confirm_password_reset userExists store now token =
      ⟨invalidTokenResponse, store, none⟩ ∧
    invalidTokenResponse.status = 400 ∧
    invalidTokenResponse.error = some "Invalid or expired token" := by
  exact ⟨confirm_of_absent userExists store now token habsent, rfl, rfl⟩

/-- Witness for C2 at a concrete input: the token was never issued. -/
theorem c2_absent_token_uniform_witness :
    confirm_password_reset (fun _ => true) (fun _ => none) 0 "tok" =
      ⟨invalidTokenResponse, (fun _ => none), none⟩ ∧
    invalidTokenResponse.status = 400 ∧
    invalidTokenResponse.error = some "Invalid or expired token" :=
  c2_absent_token_uniform (fun _ => true) (fun _ => none) 0 "tok" rfl

/-- Claim C7: a reset request for an email with no matching user returns a 200
with only the generic message, no token field, and returns the store exactly
as it was: no entry of any kind is created and the token manager is not
invoked. -/
theorem c7_unknown_email_no_store_entry (findByEmail : String → Option Nat)
    (store : TTLStore Nat) (now : Nat) (email : String) (pick : Fin 32 → Fin 62)
    (hfind : findByEmail email = none) :
    request_password_reset findByEmail store now email pick =
      (resetRequestGenericResponse, store) ∧
    resetRequestGenericResponse.status = 200 ∧
    resetRequestGenericResponse.token = none ∧
    resetRequestGenericResponse.message =
      some "If the email exists, a password reset token has been generated" := by
  refine ⟨?_, rfl, rfl, rfl⟩
  simp [request_password_reset, hfind]

/-- Witness for C7 at a concrete input. -/
theorem c7_unknown_email_no_store_entry_witness :
    request_password_reset (fun _ => none) (fun _ => none) 5 "x@y.z" (fun _ => 0) =
      (resetRequestGenericResponse, (fun _ => none)) ∧
    resetRequestGenericResponse.status = 200 ∧
    resetRequestGenericResponse.token = none ∧
    resetRequestGenericResponse.message =
      some "If the email exists, a password reset token has been generated" :=
  c7_unknown_email_no_store_entry (fun _ => none) (fun _ => none) 5 "x@y.z"
    (fun _ => 0) rfl

/-- Claim C10: when the token is present but its bound user id no longer
resolves, confirm_password_reset returns a 400 labelled User not found,
distinct from the invalid-token label, sets no password, and leaves the store
unchanged, so the token stays live and a later redeem reaches the same lookup
again. -/
theorem c10_user_deleted_token_kept (userExists : Nat → Bool)
    (store : TTLStore Nat) (now : Nat) (token : String) (uid : Nat)
    (hget : tget store now (resetTokenKey token) = some uid)
    (huser : userExists uid = false) :
    confirm_password_reset userExists store now token =
      ⟨userNotFoundResponse, store, none⟩ ∧
    userNotFoundResponse.status = 400 ∧
    userNotFoundResponse.error = some "User not found" ∧
    userNotFoundResponse ≠ invalidTokenResponse ∧
    confirmLookup (confirm_password_reset userExists store now token).store
      now token = some uid := by
  have h1 : confirm_password_reset userExists store now token =
      ⟨userNotFoundResponse, store, none⟩ := by
    simp [confirm_password_reset, confirmLookup, hget, confirmRest, huser]
  refine ⟨h1, rfl, rfl, by decide, ?_⟩
  rw [h1]
  exact hget

/-- Witness for C10 at a concrete input: token bound to user 7, user 7 gone. -/
theorem c10_user_deleted_token_kept_witness :
    confirm_password_reset (fun _ => false)
        (fun k => if k = "password_reset_tok" then some (7, 600) else none)
        0 "tok" =
      ⟨userNotFoundResponse,
        (fun k => if k = "password_reset_tok" then some (7, 600) else none),
        none⟩ ∧
    userNotFoundResponse.status = 400 ∧
    userNotFoundResponse.error = some "User not found" ∧
    userNotFoundResponse ≠ invalidTokenResponse ∧
    confirmLookup (confirm_password_reset (fun _ => false)
        (fun k => if k = "password_reset_tok" then some (7, 600) else none)
        0 "tok").store 0 "tok" = some 7 :=
  c10_user_deleted_token_kept (fun _ => false)
    (fun k => if k = "password_reset_tok" then some (7, 600) else none)
    0 "tok" 7 (by simp [tget, resetTokenKey]) rfl

/-- Claim C4: a reset request for an existing user returns a 200 whose payload
carries the issued token and the fixed label 10 minutes, the token is 32
characters long over the alphabet of ASCII letters and digits (for every
possible draw sequence of the secure source), and the store maps
password_reset_token to the user id with expiry 600 seconds from now. -/
theorem c4_issue_token (findByEmail : String → Option Nat) (store : TTLStore Nat)
    (now : Nat) (email : String) (uid : Nat) (pick : Fin 32 → Fin 62)
    (hfind : findByEmail email = some uid) :
    (request_password_reset findByEmail store now email pick).1 =
      resetRequestOkResponse (genTokenStr pick) ∧
    (resetRequestOkResponse (genTokenStr pick)).status = 200 ∧
    (resetRequestOkResponse (genTokenStr pick)).token = some (genTokenStr pick) ∧
    (resetRequestOkResponse (genTokenStr pick)).expires_in = some "10 minutes" ∧
    (genTokenStr pick).length = 32 ∧
    (∀ c ∈ (genTokenStr pick).toList, c ∈ alphabetList) ∧
    (request_password_reset findByEmail store now email pick).2
      (resetTokenKey (genTokenStr pick)) = some (uid, now + 600) := by
  rw [request_found findByEmail store now email pick uid hfind]
  refine ⟨rfl, rfl, rfl, rfl, genToken_length pick, genToken_mem_alphabet pick, ?_⟩
  simp [tset]

/-- Witness for C4 at a concrete input (all draws pick the first symbol). -/
theorem c4_issue_token_witness :
    (request_password_reset (fun _ => some 42) (fun _ => none) 100 "a@b.c"
        (fun _ => 0)).1 =
      resetRequestOkResponse (genTokenStr (fun _ => 0)) ∧
    (resetRequestOkResponse (genTokenStr (fun _ => 0))).status = 200 ∧
    (resetRequestOkResponse (genTokenStr (fun _ => 0))).token =
      some (genTokenStr (fun _ => 0)) ∧
    (resetRequestOkResponse (genTokenStr (fun _ => 0))).expires_in =
      some "10 minutes" ∧
    (genTokenStr (fun _ => 0)).length = 32 ∧
    (∀ c ∈ (genTokenStr (fun _ => 0)).toList, c ∈ alphabetList) ∧
    (request_password_reset (fun _ => some 42) (fun _ => none) 100 "a@b.c"
        (fun _ => 0)).2 (resetTokenKey (genTokenStr (fun _ => 0))) =
      some (42, 100 + 600) :=
  c4_issue_token (fun _ => some 42) (fun _ => none) 100 "a@b.c" 42 (fun _ => 0) rfl

/-- Claim C1: once a token has been issued for an existing user, a sequential
trace of redeem calls on it, the first of which happens before the 600-second
expiry, succeeds exactly at that first call, which sets the bound user's
password, and every later call answers Invalid or expired token; after the
trace the store key is gone at every observation time. -/
theorem c1_token_single_use (findByEmail : String → Option Nat)
    (userExists : Nat → Bool) (store : TTLStore Nat) (pick : Fin 32 → Fin 62)
    (email : String) (uid T t0 : Nat) (ts : List Nat)
    (hfind : findByEmail email = some uid)
    (huser : userExists uid = true)
    (ht : t0 < T + 600) :
    (runConfirms userExists (genTokenStr pick)
        (request_password_reset findByEmail store T email pick).2 (t0 :: ts)).1 =
      resetOkResponse :: ts.map (fun _ => invalidTokenResponse) ∧
    (confirm_password_reset userExists
        (request_password_reset findByEmail store T email pick).2 t0
        (genTokenStr pick)).passwordSet = some uid ∧
    ∀ t2 : Nat,
      tget (runConfirms userExists (genTokenStr pick)
          (request_password_reset findByEmail store T email pick).2 (t0 :: ts)).2
        t2 (resetTokenKey (genTokenStr pick)) = none := by
  rw [request_found findByEmail store T email pick uid hfind]
  have hget : tget (tset store T (resetTokenKey (genTokenStr pick)) uid 600) t0
      (resetTokenKey (genTokenStr pick)) = some uid := by
    rw [tget_tset_self]
    simp [ht]
  have hconf := confirm_of_present_user userExists
    (tset store T (resetTokenKey (genTokenStr pick)) uid 600) t0
    (genTokenStr pick) uid hget huser
  have hraw : (tdelete (tset store T (resetTokenKey (genTokenStr pick)) uid 600)
      (resetTokenKey (genTokenStr pick))) (resetTokenKey (genTokenStr pick)) =
      none := by
    simp [tdelete]
  have hrest := runConfirms_absent userExists (genTokenStr pick) ts _ hraw
  refine ⟨?_, ?_, ?_⟩
  · simp [runConfirms, hconf, hrest]
  · rw [hconf]
  · intro t2
    simp [runConfirms, hconf, hrest]
    exact tget_tdelete_self _ _ _

/-- Witness for C1 at a concrete input: issue at time 0 for user 42, redeem at
times 1, 2 and 3. -/
theorem c1_token_single_use_witness :
    (runConfirms (fun _ => true) (genTokenStr (fun _ => 0))
        (request_password_reset (fun _ => some 42) (fun _ => none) 0 "a@b.c"
          (fun _ => 0)).2 (1 :: [2, 3])).1 =
      resetOkResponse :: [2, 3].map (fun _ => invalidTokenResponse) ∧
    (confirm_password_reset (fun _ => true)
        (request_password_reset (fun _ => some 42) (fun _ => none) 0 "a@b.c"
          (fun _ => 0)).2 1 (genTokenStr (fun _ => 0))).passwordSet = some 42 ∧
    ∀ t2 : Nat,
      tget (runConfirms (fun _ => true) (genTokenStr (fun _ => 0))
          (request_password_reset (fun _ => some 42) (fun _ => none) 0 "a@b.c"
            (fun _ => 0)).2 (1 :: [2, 3])).2
        t2 (resetTokenKey (genTokenStr (fun _ => 0))) = none :=
  c1_token_single_use (fun _ => some 42) (fun _ => true) (fun _ => none)
    (fun _ => 0) "a@b.c" 42 0 1 [2, 3] rfl rfl (by omega)

/-- Claim C8: a token issued at time T and redeemed at or after T plus 600
seconds, with no intervening redemption, answers Invalid or expired token and
leaves the store as issuance left it: a token is never redeemable once its
expiry instant has passed; in particular redemption at T plus 601 fails. -/
theorem c8_expired_token_rejected (findByEmail : String → Option Nat)
    (userExists : Nat → Bool) (store : TTLStore Nat) (T t : Nat)
    (email : String) (uid : Nat) (pick : Fin 32 → Fin 62)
    (hfind : findByEmail email = some uid)
    (ht : T + 600 ≤ t) :
    confirm_password_reset userExists
        (request_password_reset findByEmail store T email pick).2 t
        (genTokenStr pick) =
      ⟨invalidTokenResponse,
        (request_password_reset findByEmail store T email pick).2, none⟩ := by
  rw [request_found findByEmail store T email pick uid hfind]
  apply confirm_of_absent
  rw [tget_tset_self]
  simp
  omega

/-- Witness for C8 at a concrete input: issue at time 0, redeem at time 601. -/
theorem c8_expired_token_rejected_witness :
    confirm_password_reset (fun _ => true)
        (request_password_reset (fun _ => some 42) (fun _ => none) 0 "a@b.c"
          (fun _ => 0)).2 601 (genTokenStr (fun _ => 0)) =
      ⟨invalidTokenResponse,
        (request_password_reset (fun _ => some 42) (fun _ => none) 0 "a@b.c"
          (fun _ => 0)).2, none⟩ :=
  c8_expired_token_rejected (fun _ => some 42) (fun _ => true) (fun _ => none)
    0 601 "a@b.c" 42 (fun _ => 0) rfl (by omega)

/-- Claim C9 fails on the code: confirm_password_reset performs cache.get and
cache.delete as two separate store operations (views.py lines 406 and 419),
so in the interleaving where both concurrent redeemers run their cache read
before either continuation, both calls return the 200 success response and
both act on the bound user id 42 — not exactly one, as the claim requires of
an atomic lookup-and-delete. -/
theorem c9_nonatomic_double_redeem :
    (interleavedDoubleRedeem (fun u => u == 42)
        (fun k => if k = "password_reset_tok" then some (42, 600) else none)
        0 "tok").1.resp = resetOkResponse ∧
    (interleavedDoubleRedeem (fun u => u == 42)
        (fun k => if k = "password_reset_tok" then some (42, 600) else none)
        0 "tok").1.passwordSet = some 42 ∧
    (interleavedDoubleRedeem (fun u => u == 42)
        (fun k => if k = "password_reset_tok" then some (42, 600) else none)
        0 "tok").2.resp = resetOkResponse ∧
    (interleavedDoubleRedeem (fun u => u == 42)
        (fun k => if k = "password_reset_tok" then some (42, 600) else none)
        0 "tok").2.passwordSet = some 42 := by
  refine ⟨?_, ?_, ?_, ?_⟩ <;>
    simp [interleavedDoubleRedeem, confirmLookup, tget, resetTokenKey,
      confirmRest, tdelete]

/-! ## Rate-limiter lemmas -/

theorem check_fresh (store : TTLStore Nat) (now : Nat) (key : String)
    (limit window : Nat) (h : tget store now key = none) :
    check store now key limit window = (⟨true, 0⟩, tset store now key 1 window) := by
  simp [check, h]

theorem check_under_limit (store : TTLStore Nat) (now : Nat) (key : String)
    (limit window c E : Nat) (h : store key = some (c, E)) (hnow : now < E)
    (hc : c < limit) :
    check store now key limit window = (⟨true, 0⟩, tincr store key) := by
  have hg : tget store now key = some c := by simp [tget, h, hnow]
  simp [check, hg, hc]

theorem check_at_limit (store : TTLStore Nat) (now : Nat) (key : String)
    (limit window c E : Nat) (h : store key = some (c, E)) (hnow : now < E)
    (hc : limit ≤ c) :
    check store now key limit window = (⟨false, E - now⟩, store) := by
  have hg : tget store now key = some c := by simp [tget, h, hnow]
  have ht : get_ttl store now key = some (E - now) := by simp [get_ttl, h, hnow]
  simp [check, hg, ht, Nat.not_lt.mpr hc]

theorem tincr_self (store : TTLStore Nat) (key : String) (c E : Nat)
    (h : store key = some (c, E)) :
    tincr store key key = some (c + 1, E) := by
  simp [tincr, h]

theorem runChecks_admit_all (limit window : Nat) (key : String) (E : Nat)
    (ts : List Nat) :
    ∀ (s : TTLStore Nat) (c : Nat), s key = some (c, E) → (∀ t ∈ ts, t < E) →
      c + ts.length ≤ limit →
      (runChecks limit window key s ts).1 =
        ts.map (fun _ => (⟨true, 0⟩ : Decision)) ∧
      (runChecks limit window key s ts).2 key = some (c + ts.length, E) := by
  induction ts with
  | nil => intro s c h _ _; exact ⟨rfl, by simpa using h⟩
  | cons t ts ih =>
      intro s c h hin hlen
      have hstep := check_under_limit s t key limit window c E h
        (hin t (by simp)) (by simp at hlen; omega)
      have hnext : tincr s key key = some (c + 1, E) := tincr_self s key c E h
      have hrec := ih (tincr s key) (c + 1) hnext
        (fun x hx => hin x (by simp [hx])) (by simp at hlen ⊢; omega)
      constructor
      · simp [runChecks, hstep, hrec.1]
      · simp only [runChecks, hstep]
        rw [hrec.2]
        simp
        omega

theorem runChecks_append (limit window : Nat) (key : String) (ts1 ts2 : List Nat) :
    ∀ s : TTLStore Nat,
      runChecks limit window key s (ts1 ++ ts2) =
        ((runChecks limit window key s ts1).1 ++
          (runChecks limit window key
            (runChecks limit window key s ts1).2 ts2).1,
         (runChecks limit window key
            (runChecks limit window key s ts1).2 ts2).2) := by
  induction ts1 with
  | nil => intro s; rfl
  | cons t ts1 ih => intro s; simp [runChecks, ih]

/-- The full fresh-window scenario: for an identity key absent from the store,
`limit` calls all before the window closes are admitted, and one more call in
the same window is rejected with the remaining window time. -/
theorem throttle_window_scenario (limit window : Nat) (key : String)
    (s : TTLStore Nat) (t0 tr : Nat) (ts : List Nat)
    (hfresh : s key = none) (hlimit : 1 ≤ limit)
    (hlen : ts.length = limit - 1)
    (hin : ∀ t ∈ ts, t < t0 + window) (hr : tr < t0 + window) :
    (runChecks limit window key s (t0 :: (ts ++ [tr]))).1 =
      List.replicate limit (⟨true, 0⟩ : Decision) ++
        [(⟨false, t0 + window - tr⟩ : Decision)] ∧
    0 < t0 + window - tr := by
  have hstep0 := check_fresh s t0 key limit window (tget_none_of_raw_none hfresh)
  have hs1 : (tset s t0 key 1 window) key = some (1, t0 + window) := by
    simp [tset]
  have hmid := runChecks_admit_all limit window key (t0 + window) ts
    (tset s t0 key 1 window) 1 hs1 hin (by omega)
  have hlast := check_at_limit
    (runChecks limit window key (tset s t0 key 1 window) ts).2 tr key
    limit window limit (t0 + window)
    (by rw [hmid.2, show 1 + ts.length = limit from by omega]) hr (le_refl limit)
  constructor
  · have happ := runChecks_append limit window key ts [tr]
      (tset s t0 key 1 window)
    have hmap : ts.map (fun _ => (⟨true, 0⟩ : Decision)) =
        List.replicate (limit - 1) (⟨true, 0⟩ : Decision) := by
      rw [List.map_const', hlen]
    have hlim2 : limit = (limit - 1) + 1 := by omega
    simp only [runChecks, hstep0]
    rw [happ, hmid.1, hmap]
    simp only [runChecks, hlast]
    conv_rhs => rw [hlim2, List.replicate_succ]
    simp
  · omega

/-! ## Claims about the rate limiter -/

/-- Claim C3: the rate-limit check follows the fixed-window counter algorithm:
an absent counter is created with count 1 and the full window as TTL and the
call is admitted; a live counter below the limit is incremented in place and
the call is admitted; a live counter at or above the limit rejects the call
with retry_after_seconds the remaining TTL of the key (a natural number,
hence clamped at zero), leaving the store untouched. -/
theorem c3_fixed_window_counter (store : TTLStore Nat) (now : Nat) (key : String)
    (limit window c E : Nat) :
    (tget store now key = none →
      (check store now key limit window).1 = ⟨true, 0⟩ ∧
      (check store now key limit window).2 key = some (1, now + window)) ∧
    (store key = some (c, E) → now < E → c < limit →
      (check store now key limit window).1 = ⟨true, 0⟩ ∧
      (check store now key limit window).2 key = some (c + 1, E)) ∧
    (store key = some (c, E) → now < E → limit ≤ c →
      (check store now key limit window).1 = ⟨false, E - now⟩ ∧
      (check store now key limit window).2 = store) := by
  refine ⟨fun h => ?_, fun h hnow hc => ?_, fun h hnow hc => ?_⟩
  · rw [check_fresh store now key limit window h]
    exact ⟨rfl, by simp [tset]⟩
  · rw [check_under_limit store now key limit window c E h hnow hc]
    exact ⟨rfl, tincr_self store key c E h⟩
  · rw [check_at_limit store now key limit window c E h hnow hc]
    exact ⟨rfl, rfl⟩

/-- Witness for C3, instantiating each of the three cases concretely. -/
theorem c3_fixed_window_counter_witness :
    ((check (fun _ => none) 0 "k" 5 60).1 = ⟨true, 0⟩ ∧
      (check (fun _ => none) 0 "k" 5 60).2 "k" = some (1, 0 + 60)) ∧
    ((check (fun k => if k = "k" then some (2, 50) else none) 10 "k" 5 60).1 =
        ⟨true, 0⟩ ∧
      (check (fun k => if k = "k" then some (2, 50) else none) 10 "k" 5 60).2 "k" =
        some (2 + 1, 50)) ∧
    ((check (fun k => if k = "k" then some (5, 50) else none) 10 "k" 5 60).1 =
        ⟨false, 50 - 10⟩ ∧
      (check (fun k => if k = "k" then some (5, 50) else none) 10 "k" 5 60).2 =
        (fun k => if k = "k" then some (5, 50) else none)) :=
  ⟨(c3_fixed_window_counter (fun _ => none) 0 "k" 5 60 0 0).1 rfl,
   (c3_fixed_window_counter (fun k => if k = "k" then some (2, 50) else none)
      10 "k" 5 60 2 50).2.1 (by simp) (by omega) (by omega),
   (c3_fixed_window_counter (fun k => if k = "k" then some (5, 50) else none)
      10 "k" 5 60 5 50).2.2 (by simp) (by omega) (by omega)⟩

/-- Claim C6: counter lifecycle within a window: the first request creates the
counter with count 1 and the full window TTL; a request within the window and
below the limit increments the count without moving the expiry instant; and
while the window is open the application never deletes the counter, never
extends it, and never decreases its count — the count is monotonically
non-decreasing and only TTL expiry can reset it. -/
theorem c6_counter_monotone (store : TTLStore Nat) (now : Nat) (key : String)
    (limit window c E : Nat) :
    (tget store now key = none →
      (check store now key limit window).2 key = some (1, now + window)) ∧
    (store key = some (c, E) → now < E → c < limit →
      (check store now key limit window).2 key = some (c + 1, E)) ∧
    (store key = some (c, E) → now < E →
      ∃ c2, (check store now key limit window).2 key = some (c2, E) ∧ c ≤ c2) := by
  refine ⟨fun h => ?_, fun h hnow hc => ?_, fun h hnow => ?_⟩
  · rw [check_fresh store now key limit window h]
    simp [tset]
  · rw [check_under_limit store now key limit window c E h hnow hc]
    exact tincr_self store key c E h
  · by_cases hc : c < limit
    · rw [check_under_limit store now key limit window c E h hnow hc]
      exact ⟨c + 1, tincr_self store key c E h, by omega⟩
    · rw [check_at_limit store now key limit window c E h hnow (by omega)]
      exact ⟨c, h, le_refl c⟩

/-- Witness for C6, instantiating the three conjuncts concretely. -/
theorem c6_counter_monotone_witness :
    (check (fun _ => none) 0 "k" 5 60).2 "k" = some (1, 0 + 60) ∧
    (check (fun k => if k = "k" then some (2, 50) else none) 10 "k" 5 60).2 "k" =
      some (2 + 1, 50) ∧
    ∃ c2, (check (fun k => if k = "k" then some (5, 50) else none) 10 "k" 5 60).2
        "k" = some (c2, 50) ∧ 5 ≤ c2 :=
  ⟨(c6_counter_monotone (fun _ => none) 0 "k" 5 60 0 0).1 rfl,
   (c6_counter_monotone (fun k => if k = "k" then some (2, 50) else none)
      10 "k" 5 60 2 50).2.1 (by simp) (by omega) (by omega),
   (c6_counter_monotone (fun k => if k = "k" then some (5, 50) else none)
      10 "k" 5 60 5 50).2.2 (by simp) (by omega)⟩

/-- Claim C5: under the login policy (limit 5, window 60 seconds, identity the
first forwarded-for entry when present, else the peer address) a fresh
identity gets its first 5 calls admitted and a 6th call in the same window
rejected with positive retry_after_seconds; under the reset-request policy
(limit 3, window 3600 seconds, identity a one-way hash of the target email)
a fresh identity gets 3 calls admitted and a 4th in-window call rejected with
positive retry_after_seconds. -/
theorem c5_policy_scenarios (md5hex : String → String) (xff : Option String)
    (ra : String) (email k2 : String) (s1 s2 : TTLStore Nat)
    (t0 u0 tr ur : Nat) (ts us : List Nat)
    (h1 : s1 (login_throttle_key xff ra) = none)
    (h2 : ts.length = 4) (h3 : ∀ t ∈ ts, t < t0 + 60) (h4 : tr < t0 + 60)
    (_hk : password_reset_throttle_cache_key md5hex email = some k2)
    (h5 : s2 k2 = none)
    (h6 : us.length = 2) (h7 : ∀ t ∈ us, t < u0 + 3600) (h8 : ur < u0 + 3600) :
    ((runChecks login_rate_limit login_rate_window (login_throttle_key xff ra)
        s1 (t0 :: (ts ++ [tr]))).1 =
      List.replicate 5 (⟨true, 0⟩ : Decision) ++
        [(⟨false, t0 + 60 - tr⟩ : Decision)] ∧
      0 < t0 + 60 - tr) ∧
    ((runChecks password_reset_rate_limit password_reset_rate_window k2
        s2 (u0 :: (us ++ [ur]))).1 =
      List.replicate 3 (⟨true, 0⟩ : Decision) ++
        [(⟨false, u0 + 3600 - ur⟩ : Decision)] ∧
      0 < u0 + 3600 - ur) := by
  constructor
  · exact throttle_window_scenario login_rate_limit login_rate_window
      (login_throttle_key xff ra) s1 t0 tr ts h1 (by decide) (by simpa using h2)
      h3 h4
  · exact throttle_window_scenario password_reset_rate_limit
      password_reset_rate_window k2 s2 u0 ur us h5 (by decide)
      (by simpa using h6) h7 h8

/-- Witness for C5 at concrete inputs: a forwarded-for chain for the login
policy and a hashed email key for the reset policy, all calls inside one
window. -/
theorem c5_policy_scenarios_witness :
    ((runChecks login_rate_limit login_rate_window
        (login_throttle_key (some "1.2.3.4, 5.6.7.8") "9.9.9.9")
        (fun _ => none) (0 :: ([10, 20, 30, 40] ++ [50]))).1 =
      List.replicate 5 (⟨true, 0⟩ : Decision) ++
        [(⟨false, 0 + 60 - 50⟩ : Decision)] ∧
      0 < 0 + 60 - 50) ∧
    ((runChecks password_reset_rate_limit password_reset_rate_window
        "password_reset_throttle_h" (fun _ => none) (7 :: ([8, 9] ++ [100]))).1 =
      List.replicate 3 (⟨true, 0⟩ : Decision) ++
        [(⟨false, 7 + 3600 - 100⟩ : Decision)] ∧
      0 < 7 + 3600 - 100) :=
  c5_policy_scenarios (fun _ => "h") (some "1.2.3.4, 5.6.7.8") "9.9.9.9"
    "user@example.com" "password_reset_throttle_h" (fun _ => none) (fun _ => none)
    0 7 50 100 [10, 20, 30, 40] [8, 9] rfl rfl (by decide) (by omega)
    (by simp [password_reset_throttle_cache_key]) rfl rfl (by decide) (by omega)

end AuthService
